import Mathlib

/-!
Shallow embedding of the `accident_detector` edge agent
(`state.py`, `system.py`, `api_client.py`, `model_manager.py`).

Conventions of the embedding:
* Python floats (timestamps, confidences, cooldown durations) are modelled as `ℚ`;
  the code only compares and subtracts them, so only the ordered-field structure matters.
* The wall clock (`time.time()`) is passed explicitly as a `now : ℚ` argument.
* Fallible operations are modelled by explicit outcome parameters (what the HTTP layer,
  the pickle file or the classifier produced), so every definition is a total function
  of its inputs.
-/

namespace AccidentDetector

/-- `state.py` lines 17-22: the `Status` enum. -/
inductive Status
  | reported
  | validated
  | invalid
  | resolved
  | unknown
deriving DecidableEq

/-- `state.py` lines 38-43: the fields of `SystemState` (default values are those set
in `__init__` before `_load` runs). -/
structure SystemState where
  node_id : Option String
  last_event_id : Option String
  event_status : Status
  last_timestamp : ℚ
  unresolved : Bool
deriving DecidableEq

/-- The fresh-start defaults assigned in `SystemState.__init__` (`state.py` 38-43). -/
def defaultState : SystemState :=
  { node_id := none
    last_event_id := none
    event_status := Status.unknown
    last_timestamp := 0
    unresolved := false }

/-- The `Status(value)` enum constructor (`state.py` line 58): `none` models the
`ValueError` raised on a string that is not a member value. -/
def statusOfValue (s : String) : Option Status :=
  if s = "reported" then some Status.reported
  else if s = "validated" then some Status.validated
  else if s = "invalid" then some Status.invalid
  else if s = "resolved" then some Status.resolved
  else if s = "unknown" then some Status.unknown
  else none

/-- The raw `event_status` entry of a pickled state dict: `data.get('event_status',
Status.UNKNOWN.value)` (`state.py` line 58) substitutes `"unknown"` when absent. -/
inductive RawStatus
  | absent
  | val (s : String)
deriving DecidableEq

/-- The string `data.get('event_status', Status.UNKNOWN.value)` evaluates to. -/
def rawStatusString : RawStatus → String
  | RawStatus.absent => "unknown"
  | RawStatus.val s => s

/-- A pickled state dict as read back by `_load` (`state.py` 56-60); `none` in an
`Option` field models a key absent from the dict, handled by `dict.get` defaults. -/
structure StateRecord where
  node_id : Option String
  last_event_id : Option String
  event_status : RawStatus
  last_timestamp : Option ℚ
  unresolved : Option Bool
deriving DecidableEq

/-- What the state file on disk can present to `SystemState._load` (`state.py` 48-69):
missing (`os.path.exists` false), unreadable (`open`/`pickle.load` raises, or the
unpickled object is not a dict so `.get` raises `AttributeError`), or a readable dict. -/
inductive StateFile
  | missing
  | unreadable
  | record (r : StateRecord)
deriving DecidableEq

/-- `SystemState._load` (`state.py` 48-69), starting from the `__init__` defaults.
A missing file returns immediately; any exception is caught at line 68 and only logged.
Field assignments happen in source order (lines 56-60): `node_id` and `last_event_id`
are assigned before `Status(...)` runs at line 58, so when `Status(...)` raises
`ValueError` those two fields keep the file's values while `event_status`,
`last_timestamp` and `unresolved` keep their defaults. -/
def loadState : StateFile → SystemState
  | StateFile.missing => defaultState
  | StateFile.unreadable => defaultState
  | StateFile.record r =>
    match statusOfValue (rawStatusString r.event_status) with
    | some st =>
      { node_id := r.node_id
        last_event_id := r.last_event_id
        event_status := st
        last_timestamp := r.last_timestamp.getD 0
        unresolved := r.unresolved.getD false }
    | none =>
      { defaultState with
        node_id := r.node_id
        last_event_id := r.last_event_id }

/-- `SystemState.mark_reported` (`state.py` 95-103). -/
def mark_reported (s : SystemState) (event_id : String) (now : ℚ) : SystemState :=
  { s with
    last_event_id := some event_id
    event_status := Status.reported
    last_timestamp := now
    unresolved := true }

/-- `SystemState.mark_validated` (`state.py` 105-111). -/
def mark_validated (s : SystemState) (now : ℚ) : SystemState :=
  { s with event_status := Status.validated, last_timestamp := now }

/-- `SystemState.mark_invalid` (`state.py` 113-120). -/
def mark_invalid (s : SystemState) (now : ℚ) : SystemState :=
  { s with event_status := Status.invalid, last_timestamp := now, unresolved := false }

/-- `SystemState.mark_resolved` (`state.py` 122-129). -/
def mark_resolved (s : SystemState) (now : ℚ) : SystemState :=
  { s with event_status := Status.resolved, last_timestamp := now, unresolved := false }

/-- `SystemState.clear_unresolved` (`state.py` 131-136). -/
def clear_unresolved (s : SystemState) : SystemState :=
  { s with unresolved := false }

/-- `SystemState.is_unresolved` (`state.py` 138-141). -/
def is_unresolved (s : SystemState) : Bool :=
  s.unresolved

/-- `SystemState.is_in_cooldown` (`state.py` 143-152): status is `VALIDATED` and
`time.time() - last_timestamp < cooldown`. -/
def is_in_cooldown (s : SystemState) (cooldown : ℚ) (now : ℚ) : Bool :=
  s.event_status == Status.validated && decide (now - s.last_timestamp < cooldown)

/-- `SystemState.has_cooldown_elapsed` (`state.py` 154-163): status is `VALIDATED` and
`time.time() - last_timestamp >= cooldown`. -/
def has_cooldown_elapsed (s : SystemState) (cooldown : ℚ) (now : ℚ) : Bool :=
  s.event_status == Status.validated && decide (cooldown ≤ now - s.last_timestamp)

/-! ## Frame queue (`system.py` `process_video`, lines 184-199)

Frames are identified by their arrival order (`ℕ`); the queue is the FIFO list of
queued frames, oldest first, as held by `queue.Queue`. -/

/-- `queue.Queue.full()` for a queue created with `maxsize = cap`: true when
`0 < maxsize` and the current size has reached it (a non-positive `maxsize` means an
unbounded queue, for which `full()` is always false). -/
def queueFull (cap : ℕ) (q : List ℕ) : Bool :=
  0 < cap && cap ≤ q.length

/-- One `push` of the capture loop (`system.py` 187-195): if the queue is not full,
`put_nowait(frame)` appends; if it is full, `get_nowait()` removes the oldest queued
frame and then `put_nowait(frame)` appends the new one. -/
def pushFrame (cap : ℕ) (q : List ℕ) (f : ℕ) : List ℕ :=
  if queueFull cap q then q.drop 1 ++ [f] else q ++ [f]

/-! ## Detection confirmer (`system.py` `process_frames`, lines 258-273) -/

/-- The detection configuration: `AccidentConfidenceThreshold` and
`RequiredConsecutiveFrames` (`system.py` 53-54). -/
structure DetectCfg where
  threshold : ℚ
  required : ℕ
deriving DecidableEq

/-- The qualifying test of `system.py` line 259:
`prediction == "accident" and confidence > self.accident_confidence_threshold`
(note: strictly greater than the threshold). -/
def qualifies (cfg : DetectCfg) (label : String) (conf : ℚ) : Bool :=
  label == "accident" && decide (cfg.threshold < conf)

/-- One update of `consecutive_accident_frames` (`system.py` 259-273).
Returns the new counter and whether the event-send path (line 269) was entered.
A qualifying frame increments the counter; on reaching `required_consecutive_frames`
the event is sent and the counter resets to 0 (line 270). A non-qualifying frame
runs `consecutive_accident_frames = max(0, consecutive_accident_frames - 1)`
(line 273), which on `ℕ` is truncated subtraction by one. -/
def observeStep (cfg : DetectCfg) (c : ℕ) (label : String) (conf : ℚ) : ℕ × Bool :=
  if qualifies cfg label conf then
    if cfg.required ≤ c + 1 then (0, true) else (c + 1, false)
  else (c - 1, false)

/-- The counter after a sequence of processed frames, starting from counter `c`. -/
def runCounter (cfg : DetectCfg) (c : ℕ) (frames : List (String × ℚ)) : ℕ :=
  frames.foldl (fun c f => (observeStep cfg c f.1 f.2).1) c

/-- The per-frame fire outputs over a sequence of processed frames. -/
def firesList (cfg : DetectCfg) (c : ℕ) : List (String × ℚ) → List Bool
  | [] => []
  | f :: rest =>
    let r := observeStep cfg c f.1 f.2
    r.2 :: firesList cfg r.1 rest

/-- Whether the confirmer fires on the last frame of the sequence. -/
def firesOnLast (cfg : DetectCfg) (frames : List (String × ℚ)) : Bool :=
  (firesList cfg 0 frames).getLastD false

/-- Modelled from the spec (section 8, "Confirmation correctness"), for comparison with
the code: the fire condition the claim states — the most recent
`requiredConsecutiveFrames` processed frames were all labeled `"accident"` with
confidence at or above the threshold. -/
def specFiresOnLast (cfg : DetectCfg) (frames : List (String × ℚ)) : Bool :=
  decide (cfg.required ≤ frames.length) &&
    (frames.drop (frames.length - cfg.required)).all
      (fun f => f.1 == "accident" && decide (cfg.threshold ≤ f.2))

/-! ## Remote API client (`api_client.py` `send_accident_event`, lines 144-192) -/

/-- A Python value appearing in the dict returned by `APIClient.send_accident_event`. -/
inductive PyVal
  | pybool (b : Bool)
  | pystr (s : String)
  | pynone
deriving DecidableEq

/-- Python truthiness of a dict: a dict is truthy exactly when it is non-empty.
This is what `if self.api_client.send_accident_event(event_data):` (`system.py` 145)
evaluates on the returned dict. -/
def pyTruthy (d : List (String × PyVal)) : Bool :=
  !d.isEmpty

/-- The `"image"` entry of the `event_data` dict as seen by
`event_data.get("image")` (`api_client.py` 158): absent, a `str`, or `bytes`. -/
inductive ImageField
  | absent
  | strVal (s : String)
  | bytesVal (b : List ℕ)
deriving DecidableEq

/-- What the HTTP layer does when the POST of `api_client.py` 167-174 runs:
the request raises (`requests.RequestException`), `raise_for_status` raises
(`requests.HTTPError`), `resp.json()` raises (`json.JSONDecodeError`), or the
response parses and its `event_id` field is `eid` (`none` for absent/empty). -/
inductive HttpOutcome
  | transportError
  | httpError (status : ℕ)
  | jsonError
  | ok (event_id : Option String)
deriving DecidableEq

/-- `APIClient.send_accident_event` (`api_client.py` 144-192), as the dict it returns.
If the `"image"` entry is not `bytes`/`bytearray`, it returns
`{"success": False, "event_id": None}` before any HTTP request (lines 158-163).
Otherwise every outcome of the POST is caught and mapped to a two-key dict:
success with the returned `event_id`, or failure with `event_id = None`
(lines 166-192). The function never raises. -/
def apiSendAccidentEvent (image : ImageField) (http : HttpOutcome) :
    List (String × PyVal) :=
  match image with
  | ImageField.bytesVal _ =>
    match http with
    | HttpOutcome.ok (some eid) =>
      [("success", PyVal.pybool true), ("event_id", PyVal.pystr eid)]
    | HttpOutcome.ok none =>
      [("success", PyVal.pybool false), ("event_id", PyVal.pynone)]
    | HttpOutcome.transportError =>
      [("success", PyVal.pybool false), ("event_id", PyVal.pynone)]
    | HttpOutcome.httpError _ =>
      [("success", PyVal.pybool false), ("event_id", PyVal.pynone)]
    | HttpOutcome.jsonError =>
      [("success", PyVal.pybool false), ("event_id", PyVal.pynone)]
  | _ => [("success", PyVal.pybool false), ("event_id", PyVal.pynone)]

/-- Whether `APIClient.send_accident_event` reaches the HTTP POST at all
(`api_client.py` 167): only when the `"image"` entry holds bytes. -/
def apiPostAttempted (image : ImageField) : Bool :=
  match image with
  | ImageField.bytesVal _ => true
  | _ => false

/-- Observable trace of one call to `AccidentDetectionSystem.send_accident_event`
(production branch, `system.py` 132-150). -/
structure SendTrace where
  guardTaken : Bool
  postAttempted : Bool
  checkResolvedCalled : Bool
deriving DecidableEq

/-- `AccidentDetectionSystem.send_accident_event`, production branch
(`system.py` 133-150). The constructed `event_data` stores
`"image": image_base64` — a base64 `str` (line 135/143), not bytes — so
`APIClient.send_accident_event` rejects it before posting. The result dict is
tested for truthiness at line 145; inside that branch, line 146 calls
`self.state.update_accident_state()`, but `SystemState` (`state.py`) defines no
attribute `update_accident_state`, so the call raises `AttributeError`, which the
enclosing `except Exception` (line 149) catches and logs. Hence the durable state is
never mutated and `check_accident_resolved` (line 148) is never reached. -/
def systemSendAccidentEvent (s : SystemState) (imageBase64 : String)
    (http : HttpOutcome) : SystemState × SendTrace :=
  let img := ImageField.strVal imageBase64
  let r := apiSendAccidentEvent img http
  if pyTruthy r then
    (s, { guardTaken := true
          postAttempted := apiPostAttempted img
          checkResolvedCalled := false })
  else
    (s, { guardTaken := false
          postAttempted := apiPostAttempted img
          checkResolvedCalled := false })

/-! ## The frame-processing loop body (`system.py` `process_frames`, lines 217-280)

One iteration as it treats one fetched frame. The durable state `s` is held fixed
across a run: `systemSendAccidentEvent` leaves it unchanged (see its definition)
and nothing else in the loop writes it. The prediction/counter code of lines
243-273 (embedded above as `observeStep`) is dead in execution: line 239 looks up
`self.image_processor.compress_image`, an attribute `ImageProcessor`
(`image_processor.py`, which defines `detect_motion` and `compress` only) does not
have, so every non-cooldown iteration raises `AttributeError` inside the `try` of
line 237, caught at line 277. -/

/-- Result of one iteration of the `while` body of `process_frames`. -/
inductive IterResult
  | crashed
  | processed (counter : ℕ) (sent : Bool)
deriving DecidableEq

/-- One iteration of `process_frames` (`system.py` 217-280) for one fetched frame.
If `is_in_cooldown` holds, line 219 evaluates `self.state.last_accident_time`, an
attribute `SystemState` does not define; the `AttributeError` is raised outside any
`try` of the loop body, so the processing thread dies (`crashed`). Otherwise line
239 evaluates `self.image_processor.compress_image`, an attribute `ImageProcessor`
does not define; that `AttributeError` is raised inside the `try` of line 237 and
caught at line 277, which marks the queue task done and sleeps — so the iteration
ends with `consecutive_accident_frames` unchanged, the prediction/counter code of
lines 243-273 never runs, and `send_accident_event` (line 269) is not invoked
(`sent = false`). -/
def processIteration (cooldown : ℚ) (s : SystemState) (now : ℚ)
    (c : ℕ) : IterResult :=
  if is_in_cooldown s cooldown now then IterResult.crashed
  else IterResult.processed c false

/-- Number of invocations of `send_accident_event` over a run of `n` consecutive
`process_frames` iterations (one fetched frame each); a crash of the thread ends
the run. -/
def runSends (cooldown : ℚ) (s : SystemState) (now : ℚ) (c : ℕ) : ℕ → ℕ
  | 0 => 0
  | n + 1 =>
    match processIteration cooldown s now c with
    | IterResult.crashed => 0
    | IterResult.processed c2 sent =>
      (if sent then 1 else 0) + runSends cooldown s now c2 n

/-! ## Model manager (`model_manager.py`, lines 84-116) -/

/-- The mutable fields of `ModelManager` relevant to `load_model`/`predict`:
`_model_loaded` and whether its non-reentrant `threading.Lock` is currently held. -/
structure MMState where
  modelLoaded : Bool
  lockHeld : Bool
deriving DecidableEq

/-- What the body of `load_model` would find: the model file missing,
`load_learner` raising, or loading succeeding. -/
inductive LoadOutcome
  | fileMissing
  | loadRaises
  | loadOk
deriving DecidableEq

/-- What `self._model.predict(img)` does: returns a (label, confidence) pair, or
raises (caught at `model_manager.py` 114). -/
inductive PredictOutcome
  | ok (label : String) (conf : ℚ)
  | raises
deriving DecidableEq

/-- `ModelManager.load_model` (`model_manager.py` 84-99). Its body runs under
`with self._lock:`; `threading.Lock` is non-reentrant, so if the lock is already
held (by the same thread) the acquire blocks forever — modelled as `none`.
Otherwise returns the state on exit (lock released) and the boolean result. -/
def load_model (st : MMState) (out : LoadOutcome) : Option (MMState × Bool) :=
  if st.lockHeld then none
  else if st.modelLoaded then some ({ st with lockHeld := false }, true)
  else
    match out with
    | LoadOutcome.fileMissing => some ({ st with lockHeld := false }, false)
    | LoadOutcome.loadRaises => some ({ st with lockHeld := false }, false)
    | LoadOutcome.loadOk =>
      some ({ st with lockHeld := false, modelLoaded := true }, true)

/-- `ModelManager.predict` (`model_manager.py` 101-116). The whole body runs under
`with self._lock:`. When `_model_loaded` is false it calls `self.load_model()`
while still holding the lock; `load_model` re-acquires the same non-reentrant lock,
so the call never returns (`none` = blocks forever). When the model is loaded, a
raising prediction returns `("unknown", 0.0)` (lines 114-116). -/
def predict (st : MMState) (lout : LoadOutcome) (pout : PredictOutcome) :
    Option (MMState × String × ℚ) :=
  if st.lockHeld then none
  else
    let stL := { st with lockHeld := true }
    if stL.modelLoaded then
      match pout with
      | PredictOutcome.ok label conf =>
        some ({ stL with lockHeld := false }, label, conf)
      | PredictOutcome.raises =>
        some ({ stL with lockHeld := false }, "unknown", 0)
    else
      match load_model stL lout with
      | none => none
      | some (st2, ldOk) =>
        if ldOk then
          match pout with
          | PredictOutcome.ok label conf =>
            some ({ st2 with lockHeld := false }, label, conf)
          | PredictOutcome.raises =>
            some ({ st2 with lockHeld := false }, "unknown", 0)
        else some ({ st2 with lockHeld := false }, "unknown", 0)

/-! ## Helper lemmas -/

/-- While the queue never reaches capacity, pushes are plain FIFO appends. -/
theorem foldl_pushFrame_of_length_le (cap : ℕ) (l : List ℕ) (q : List ℕ)
    (h : q.length + l.length ≤ cap) :
    List.foldl (pushFrame cap) q l = q ++ l := by
  induction l generalizing q with
  | nil => simp
  | cons x xs ih =>
    have hq : q.length < cap := by
      have := h
      simp [List.length_cons] at this
      omega
    have hfull : queueFull cap q = false := by
      simp [queueFull]
      omega
    have hstep : pushFrame cap q x = q ++ [x] := by
      simp [pushFrame, hfull]
    rw [List.foldl_cons, hstep, ih]
    · simp
    · simp [List.length_append]
      simp [List.length_cons] at h
      omega

/-- From counter `c`, a block of all-qualifying frames whose length completes the
requirement fires exactly on its last frame. -/
theorem firesList_all_qualifying (cfg : DetectCfg) (frames : List (String × ℚ))
    (c : ℕ) (hq : ∀ f ∈ frames, qualifies cfg f.1 f.2 = true)
    (hlen : c + frames.length = cfg.required) (hne : 1 ≤ frames.length) :
    firesList cfg c frames = List.replicate (frames.length - 1) false ++ [true] := by
  induction frames generalizing c with
  | nil => simp at hne
  | cons f rest ih =>
    have hf : qualifies cfg f.1 f.2 = true := hq f (List.mem_cons_self f rest)
    cases rest with
    | nil =>
      have hc : cfg.required ≤ c + 1 := by
        simp [List.length_cons] at hlen
        omega
      simp [firesList, observeStep, hf, hc]
    | cons g gs =>
      have hlt : ¬ cfg.required ≤ c + 1 := by
        simp [List.length_cons] at hlen ⊢
        omega
      have hrest : ∀ x ∈ g :: gs, qualifies cfg x.1 x.2 = true := by
        intro x hx
        exact hq x (List.mem_cons_of_mem f hx)
      have hstep : observeStep cfg c f.1 f.2 = (c + 1, false) := by
        simp [observeStep, hf, hlt]
      have ihr := ih (c + 1) hrest
        (by simp [List.length_cons] at hlen ⊢; omega)
        (by simp)
      have hcons : firesList cfg c (f :: g :: gs) =
          false :: firesList cfg (c + 1) (g :: gs) := by
        have hunf : firesList cfg c (f :: g :: gs) =
            (observeStep cfg c f.1 f.2).2 ::
              firesList cfg (observeStep cfg c f.1 f.2).1 (g :: gs) := rfl
        rw [hunf, hstep]
      rw [hcons, ihr]
      simp [List.length_cons, List.replicate_succ]

/-! ## Helper lemmas about the processing loop -/

/-- No run of `process_frames` iterations ever invokes `send_accident_event`:
a cooldown iteration kills the thread, and every other iteration dies at the
undefined `image_processor.compress_image` before reaching the confirmation code. -/
theorem runSends_eq_zero (cooldown : ℚ) (s : SystemState) (now : ℚ) :
    ∀ (n c : ℕ), runSends cooldown s now c n = 0 := by
  intro n
  induction n with
  | zero => intro c; rfl
  | succ n ih =>
    intro c
    simp only [runSends, processIteration]
    by_cases h : is_in_cooldown s cooldown now = true
    · simp [h]
    · simp [h, ih]

/-! ## Claim theorems -/

/-- Claim C1. While the persisted state has `unresolved == true`, no new accident
report is ever submitted to the remote API: over every run of `process_frames`
iterations, `send_accident_event` is invoked zero times when `is_unresolved` holds.
The guarantee is degenerate rather than designed: the loop never consults
`is_unresolved` (it gates only on `is_in_cooldown`), but it also never reaches the
detection code at all — every non-cooldown iteration raises `AttributeError` at the
undefined `image_processor.compress_image` (`system.py` 239, caught at 277) before
any prediction, so no detection streak ever completes and line 269 is unreachable;
a cooldown iteration kills the thread. Hence in particular no new event is ever
submitted while `unresolved` is true. -/
theorem no_send_invoked_while_unresolved :
    ∀ (cooldown : ℚ) (s : SystemState) (now : ℚ) (c n : ℕ),
      is_unresolved s = true → runSends cooldown s now c n = 0 :=
  fun cooldown s now c n _ => runSends_eq_zero cooldown s now n c

/-- Witness for claim C1 at a concrete unresolved Reported state. -/
theorem no_send_invoked_while_unresolved_witness :
    is_unresolved ⟨some "n", some "e1", Status.reported, 100, true⟩ = true ∧
    runSends 1800 ⟨some "n", some "e1", Status.reported, 100, true⟩ 200 0 2 = 0 :=
  ⟨by decide,
    no_send_invoked_while_unresolved 1800
      ⟨some "n", some "e1", Status.reported, 100, true⟩ 200 0 2 (by decide)⟩

/-- Claim C2, counterexample. With `requiredConsecutiveFrames = 3` and threshold
`0.7`, the sequence q q n q q (q = qualifying, n = non-qualifying) makes the code
fire on the last frame (the decay `max(0, c-1)` leaves the counter at 1 after the
non-qualifying frame), while the claim's condition — the most recent 3 processed
frames all accident-labeled at/above threshold — is false there. -/
theorem decay_fires_where_strict_reset_would_not :
    firesOnLast ⟨7, 3⟩
      [("accident", 8), ("accident", 8), ("other", 9),
        ("accident", 8), ("accident", 8)] = true ∧
    specFiresOnLast ⟨7, 3⟩
      [("accident", 8), ("accident", 8), ("other", 9),
        ("accident", 8), ("accident", 8)] = false := by
  constructor <;> decide

/-- Claim C2, amended. A frame qualifies when its label is `"accident"` and its
confidence is strictly greater than the threshold; starting from a zero counter, a
block of `requiredConsecutiveFrames` qualifying frames fires exactly on its last
frame; a non-qualifying frame decrements the counter by one, floored at zero (decay,
not strict reset) — in particular a frame at exactly the threshold decrements; and
whenever the confirmer fires the counter resets to exactly zero. -/
theorem confirmer_decay_characterization :
    (∀ (cfg : DetectCfg) (frames : List (String × ℚ)),
      frames.length = cfg.required → 1 ≤ cfg.required →
      (∀ f ∈ frames, qualifies cfg f.1 f.2 = true) →
      firesList cfg 0 frames = List.replicate (cfg.required - 1) false ++ [true]) ∧
    (∀ (cfg : DetectCfg) (c : ℕ) (label : String) (conf : ℚ),
      qualifies cfg label conf = false →
      observeStep cfg c label conf = (c - 1, false)) ∧
    (∀ (cfg : DetectCfg) (c : ℕ),
      observeStep cfg c "accident" cfg.threshold = (c - 1, false)) ∧
    (∀ (cfg : DetectCfg) (c : ℕ) (label : String) (conf : ℚ),
      (observeStep cfg c label conf).2 = true →
      (observeStep cfg c label conf).1 = 0) := by
  refine ⟨?_, ?_, ?_, ?_⟩
  · intro cfg frames hlen hreq hq
    have := firesList_all_qualifying cfg frames 0 hq (by omega) (by omega)
    rw [this, hlen]
  · intro cfg c label conf h
    simp [observeStep, h]
  · intro cfg c
    have h : qualifies cfg "accident" cfg.threshold = false := by
      simp [qualifies]
    simp [observeStep, h]
  · intro cfg c label conf h
    by_cases hq : qualifies cfg label conf = true
    · by_cases hc : cfg.required ≤ c + 1
      · simp [observeStep, hq, hc]
      · simp [observeStep, hq, hc] at h
    · rw [Bool.not_eq_true] at hq
      simp [observeStep, hq] at h

/-- Witness for the amended claim C2 at concrete inputs. -/
theorem confirmer_decay_characterization_witness :
    firesList ⟨7, 2⟩ 0 [("accident", 8), ("accident", 8)] =
      List.replicate 1 false ++ [true] ∧
    observeStep ⟨7, 2⟩ 1 "other" 9 = (0, false) ∧
    observeStep ⟨7, 2⟩ 1 "accident" 7 = (0, false) ∧
    (observeStep ⟨7, 2⟩ 1 "accident" 8).1 = 0 := by
  obtain ⟨h1, h2, h3, h4⟩ := confirmer_decay_characterization
  exact ⟨h1 ⟨7, 2⟩ [("accident", 8), ("accident", 8)] (by decide) (by decide)
          (by decide),
        h2 ⟨7, 2⟩ 1 "other" 9 (by decide),
        h3 ⟨7, 2⟩ 1,
        h4 ⟨7, 2⟩ 1 "accident" 8 (by decide)⟩

/-- Claim C3. The claim states that after a restart with persisted
`unresolved == true` the system re-enters the status-polling loop for the stored
`eventId` and, with persisted status Validated, resumes cooldown timing from the
persisted `lastTransitionTime`. The code has no resumption at all: `start()`
(`system.py` 316-338) only downloads the model, registers the node and spawns the
four worker threads; the only polling entry point named anywhere
(`api_client.check_accident_resolved`, `system.py` 148) is a method `APIClient`
does not define, and its call site is itself unreachable. This theorem evaluates
the embedded code at the failing input (persisted Validated state,
`lastTransitionTime = 1000`, cooldown 1800): loading does carry the persisted
timestamp into the cooldown gate, but during the cooldown the processing thread
crashes on the undefined `state.last_accident_time` instead of polling anything;
no event is ever re-submitted either — not through the claimed re-poll-not-rereport
logic, but because every frame iteration dies at the undefined
`image_processor.compress_image` before any detection — and the resolution flow is
never invoked under any outcome. -/
theorem restart_validated_state_crashes_never_polls :
    (loadState (StateFile.record
      ⟨some "n", some "e1", RawStatus.val "validated", some 1000, some true⟩))
      = ⟨some "n", some "e1", Status.validated, 1000, true⟩ ∧
    processIteration 1800
      ⟨some "n", some "e1", Status.validated, 1000, true⟩ 2000 0
      = IterResult.crashed ∧
    runSends 1800
      ⟨some "n", some "e1", Status.validated, 1000, true⟩ 4000 0 2 = 0 ∧
    ∀ (s : SystemState) (b : String) (http : HttpOutcome),
      (systemSendAccidentEvent s b http).2.checkResolvedCalled = false := by
  refine ⟨rfl, ?_, ?_, fun _ _ _ => rfl⟩
  · have hcool : is_in_cooldown
        ⟨some "n", some "e1", Status.validated, 1000, true⟩ 1800 2000 = true := by
      simp [is_in_cooldown]
      norm_num
    simp [processIteration, hcool]
  · exact runSends_eq_zero 1800
      ⟨some "n", some "e1", Status.validated, 1000, true⟩ 4000 2 0

/-- Claim C4. The claim states that on a successful remote send the durable state
records the `eventId`, sets status Reported, sets `unresolved`, and persists. The
code never does any of this: the production branch of
`AccidentDetectionSystem.send_accident_event` passes the image as a base64 `str`,
so `APIClient.send_accident_event` refuses it before the POST (no request is ever
made), the truthy result dict takes the guard, and the guarded call
`state.update_accident_state()` raises `AttributeError` (no such method), caught and
logged. So for every state and every HTTP outcome the durable state is returned
unchanged and the POST is never attempted. -/
theorem send_event_never_updates_state :
    ∀ (s : SystemState) (b : String) (http : HttpOutcome),
      (systemSendAccidentEvent s b http).1 = s ∧
      (systemSendAccidentEvent s b http).2.postAttempted = false :=
  fun _ _ _ => ⟨rfl, rfl⟩

/-- Claim C5. The claim states that when the cooldown elapses after validation the
controller resolves the event with the backend, sets local status Resolved, clears
`unresolved`, and marks the node online. No such controller exists in the code: the
only reference to the resolution loop, `api_client.check_accident_resolved`
(`system.py` 148), names a method `APIClient` does not define, and the call site is
itself unreachable because `state.update_accident_state()` raises first — so across
every state and HTTP outcome `check_accident_resolved` is never invoked. The
building block `SystemState.mark_resolved` exists with exactly the claimed local
effect, but nothing ever calls it. -/
theorem auto_resolution_code_never_runs :
    ∀ (s : SystemState) (b : String) (http : HttpOutcome) (now : ℚ),
      (systemSendAccidentEvent s b http).2.checkResolvedCalled = false ∧
      (mark_resolved s now).event_status = Status.resolved ∧
      (mark_resolved s now).unresolved = false :=
  fun _ _ _ _ => ⟨rfl, rfl, rfl⟩

/-- Claim C6. The frame queue implements drop-oldest backpressure: for every
capacity `N > 0`, pushing any `N + 1` frames in order into the empty queue leaves
exactly the most recent `N` frames, oldest-first; and a push onto a full queue
evicts exactly the oldest queued frame. -/
theorem queue_drop_oldest :
    ∀ (N : ℕ) (l : List ℕ), 0 < N → l.length = N + 1 →
      List.foldl (pushFrame N) [] l = l.drop 1 ∧
      ∀ (q : List ℕ) (f : ℕ), q.length = N → pushFrame N q f = q.drop 1 ++ [f] := by
  intro N l hN hlen
  constructor
  · have hne : l ≠ [] := by
      intro h
      rw [h] at hlen
      simp at hlen
    have hsplit : l.dropLast ++ [l.getLast hne] = l := List.dropLast_append_getLast hne
    have hdl : l.dropLast.length = N := by
      rw [List.length_dropLast, hlen]
      omega
    have hfold : List.foldl (pushFrame N) [] l.dropLast = l.dropLast := by
      have := foldl_pushFrame_of_length_le N l.dropLast []
        (by simp [hdl])
      simpa using this
    have hfull : queueFull N l.dropLast = true := by
      simp [queueFull, hdl]
      omega
    calc List.foldl (pushFrame N) [] l
        = List.foldl (pushFrame N) [] (l.dropLast ++ [l.getLast hne]) := by
          rw [hsplit]
      _ = pushFrame N (List.foldl (pushFrame N) [] l.dropLast) (l.getLast hne) := by
          rw [List.foldl_append]
          rfl
      _ = pushFrame N l.dropLast (l.getLast hne) := by rw [hfold]
      _ = l.dropLast.drop 1 ++ [l.getLast hne] := by
          simp [pushFrame, hfull]
      _ = (l.dropLast ++ [l.getLast hne]).drop 1 := by
          rw [List.drop_append_of_le_length]
          omega
      _ = l.drop 1 := by rw [hsplit]
  · intro q f hq
    have hfull : queueFull N q = true := by
      simp [queueFull, hq]
      omega
    simp [pushFrame, hfull]

/-- Witness for claim C6 at a concrete capacity and frame sequence. -/
theorem queue_drop_oldest_witness :
    List.foldl (pushFrame 2) [] [10, 20, 30] = [20, 30] ∧
    pushFrame 2 [5, 6] 7 = [6, 7] := by
  obtain ⟨h1, h2⟩ := queue_drop_oldest 2 [10, 20, 30] (by decide) (by decide)
  exact ⟨h1, h2 [5, 6] 7 (by decide)⟩

/-- Claim C7, counterexample. A readable pickle dict whose `event_status` value is
not a valid `Status` member (here `"corrupt"`) is a corrupt state file, yet loading
it does not leave the fresh-start defaults: `node_id` (assigned at `state.py` 56
before `Status(...)` raises at line 58) keeps the file's value. -/
theorem corrupt_status_load_not_fresh :
    loadState (StateFile.record
      ⟨some "n1", none, RawStatus.val "corrupt", some 5, some true⟩)
      ≠ defaultState ∧
    (loadState (StateFile.record
      ⟨some "n1", none, RawStatus.val "corrupt", some 5, some true⟩)).node_id
      = some "n1" := by
  constructor <;> decide

/-- Claim C7, amended. Loading never raises to the caller; a missing file, an
unpicklable file, or a non-dict pickle leaves the fresh-start defaults; a readable
pickle dict whose `event_status` value is not a valid status string leaves the
fields assigned before the failure (`node_id`, `last_event_id`) at the file's
values, while `event_status`, `last_timestamp` and `unresolved` keep their defaults
(`Unknown`, `0.0`, `false`). -/
theorem load_state_recovery :
    loadState StateFile.missing = defaultState ∧
    loadState StateFile.unreadable = defaultState ∧
    ∀ r : StateRecord, statusOfValue (rawStatusString r.event_status) = none →
      loadState (StateFile.record r) =
        { defaultState with node_id := r.node_id, last_event_id := r.last_event_id } := by
  refine ⟨rfl, rfl, ?_⟩
  intro r h
  simp only [loadState]
  rw [h]

/-- Witness for the amended claim C7 at a concrete corrupt record. -/
theorem load_state_recovery_witness :
    loadState (StateFile.record
      ⟨some "n1", none, RawStatus.val "corrupt", some 5, some true⟩) =
      { defaultState with node_id := some "n1", last_event_id := none } := by
  obtain ⟨-, -, h3⟩ := load_state_recovery
  exact h3 ⟨some "n1", none, RawStatus.val "corrupt", some 5, some true⟩ (by decide)

/-- Claim C8. `APIClient.send_accident_event` never raises and in every outcome
(success, HTTP error, transport error, JSON error, missing or non-bytes image)
returns a dict with exactly the two keys `success` and `event_id`; a non-empty
Python dict is truthy, so the guard
`if self.api_client.send_accident_event(event_data):` in
`AccidentDetectionSystem.send_accident_event` takes the success branch for failed
sends as well. -/
theorem api_send_returns_truthy_two_key_dict :
    ∀ (image : ImageField) (http : HttpOutcome) (s : SystemState) (b : String)
      (h2 : HttpOutcome),
      (apiSendAccidentEvent image http).map Prod.fst = ["success", "event_id"] ∧
      pyTruthy (apiSendAccidentEvent image http) = true ∧
      (systemSendAccidentEvent s b h2).2.guardTaken = true := by
  intro image http s b h2
  refine ⟨?_, ?_, rfl⟩ <;>
    cases image <;> cases http <;> try rfl
  all_goals (rename_i eid; cases eid <;> rfl)

/-- Claim C9. For every state, cooldown value and instant, `is_in_cooldown` and
`has_cooldown_elapsed` are never both true at the same instant, and both are false
whenever `event_status` is not `VALIDATED`. -/
theorem cooldown_checks_exclusive :
    ∀ (s : SystemState) (cooldown now : ℚ),
      (is_in_cooldown s cooldown now && has_cooldown_elapsed s cooldown now) = false ∧
      (s.event_status ≠ Status.validated →
        is_in_cooldown s cooldown now = false ∧
        has_cooldown_elapsed s cooldown now = false) := by
  intro s cooldown now
  constructor
  · by_cases hv : s.event_status = Status.validated
    · simp only [is_in_cooldown, has_cooldown_elapsed, hv, beq_self_eq_true,
        Bool.true_and]
      by_cases hlt : now - s.last_timestamp < cooldown
      · simp [hlt, not_le.mpr hlt]
      · simp [hlt]
    · simp [is_in_cooldown, hv]
  · intro hne
    simp [is_in_cooldown, has_cooldown_elapsed, hne]

/-- Witness for claim C9 at a concrete non-validated state and instant. -/
theorem cooldown_checks_exclusive_witness :
    (is_in_cooldown defaultState 3 5 && has_cooldown_elapsed defaultState 3 5)
      = false ∧
    is_in_cooldown defaultState 3 5 = false ∧
    has_cooldown_elapsed defaultState 3 5 = false := by
  refine ⟨(cooldown_checks_exclusive defaultState 3 5).1, ?_, ?_⟩
  · exact ((cooldown_checks_exclusive defaultState 3 5).2 (by decide)).1
  · exact ((cooldown_checks_exclusive defaultState 3 5).2 (by decide)).2

/-- Claim C10. The claim (and the method's own docstring) states that
`ModelManager.predict` returns `("unknown", 0.0)` when the model is not loaded and
cannot be loaded. In the code, `predict` runs its whole body under the
non-reentrant `threading.Lock` and, when `_model_loaded` is false, calls
`load_model`, whose `with self._lock:` re-acquires the same lock — so the call
blocks forever (deadlock, modelled as `none`) instead of returning, for every load
or prediction outcome. The parts of the claim the code does satisfy: with the
model loaded, a raising prediction returns `("unknown", 0.0)`, and a `"unknown"`
label can never increment the consecutive-accident counter (it decrements it). -/
theorem predict_deadlocks_when_model_not_loaded :
    (∀ (lout : LoadOutcome) (pout : PredictOutcome),
      predict ⟨false, false⟩ lout pout = none) ∧
    (∀ lout : LoadOutcome,
      predict ⟨true, false⟩ lout PredictOutcome.raises =
        some (⟨true, false⟩, "unknown", 0)) ∧
    (∀ (cfg : DetectCfg) (c : ℕ) (conf : ℚ),
      observeStep cfg c "unknown" conf = (c - 1, false)) := by
  refine ⟨fun _ _ => rfl, fun _ => rfl, ?_⟩
  intro cfg c conf
  have h : qualifies cfg "unknown" conf = false := by
    simp [qualifies]
  simp [observeStep, h]

end AccidentDetector
